import Mathlib

/-!
Verification development for the MRZ decoding + cross-validation +
eligibility-scoring engine.  Strings are modelled as lists of characters,
JavaScript numbers as `Nat`/`Int`/`ℚ` as appropriate, and the wall clock
(`new Date()`) as an explicit `CalDate` argument.
-/

namespace DocVerifier

/-- Strings are modelled as lists of characters. -/
abbrev Str := List Char

/-- The MRZ character class `[A-Z0-9<]`, tested on character codes
(digits 48–57, uppercase letters 65–90, filler 60). -/
def isMRZChar (c : Char) : Bool :=
  decide ((48 ≤ c.toNat ∧ c.toNat ≤ 57) ∨ (65 ≤ c.toNat ∧ c.toNat ≤ 90) ∨ c = '<')

/-- `String.prototype.substring(a, b)`: at every call site in the source
`a ≤ b`, and out-of-range indices clamp to the string length, which
`drop`/`take` reproduce. -/
def substring (s : Str) (a b : Nat) : Str := (s.drop a).take (b - a)

/-- `replace(/<+$/, '')`: removes the maximal trailing run of filler characters. -/
def stripTrailingFiller (s : Str) : Str :=
  (s.reverse.dropWhile (fun c => c == '<')).reverse

/-- `replace(/</g, ' ')`: every filler character becomes a space. -/
def fillerToSpace (s : Str) : Str := s.map (fun c => if c = '<' then ' ' else c)

/-- The whitespace class recognised by `\s` and `trim()`: ECMAScript
WhiteSpace ∪ LineTerminator, i.e. tab, LF, VT, FF, CR, space, NBSP
(U+00A0), U+1680, the Zs spaces U+2000–U+200A, the line separators
U+2028/U+2029, U+202F, U+205F, U+3000, and the BOM U+FEFF. -/
def isJsWhitespace (c : Char) : Bool :=
  decide (c.toNat = 9 ∨ c.toNat = 10 ∨ c.toNat = 11 ∨ c.toNat = 12 ∨ c.toNat = 13 ∨
    c.toNat = 32 ∨ c.toNat = 160 ∨ c.toNat = 5760 ∨
    (8192 ≤ c.toNat ∧ c.toNat ≤ 8202) ∨ c.toNat = 8232 ∨ c.toNat = 8233 ∨
    c.toNat = 8239 ∨ c.toNat = 8287 ∨ c.toNat = 12288 ∨ c.toNat = 65279)

/-- `String.prototype.trim()`. -/
def jsTrim (s : Str) : Str :=
  ((s.dropWhile isJsWhitespace).reverse.dropWhile isJsWhitespace).reverse

/-- `replace(/\s/g, '')`: removes all whitespace. -/
def jsRemoveWs (s : Str) : Str := s.filter (fun c => !isJsWhitespace c)

/-- `split('<<')` for the non-empty separator `<<`: non-overlapping
left-to-right splitting, keeping empty segments. -/
def splitLtLt : Str → List Str
  | [] => [[]]
  | '<' :: '<' :: rest => [] :: splitLtLt rest
  | c :: rest =>
    match splitLtLt rest with
    | s :: ss => (c :: s) :: ss
    | [] => [[c]]

/-- `split('\n')`. -/
def splitNl : Str → List Str
  | [] => [[]]
  | '\n' :: rest => [] :: splitNl rest
  | c :: rest =>
    match splitNl rest with
    | s :: ss => (c :: s) :: ss
    | [] => [[c]]

/-- Accumulate the numeric value of a digit string (most significant first). -/
def digitsToNat : Str → Nat → Nat
  | [], acc => acc
  | c :: rest, acc => digitsToNat rest (acc * 10 + (c.toNat - 48))

/-- `parseInt` restricted to the inputs arising here (substrings over
`[A-Z0-9<]`, no sign or whitespace): it parses the maximal leading digit
run and yields NaN (`none`) when that run is empty. -/
def jsParseInt (s : Str) : Option Nat :=
  let ds := s.takeWhile Char.isDigit
  if ds.isEmpty then none else some (digitsToNat ds 0)

/-- The decoded MRZ record. -/
structure MRZData where
  documentType : Str
  issuingCountry : Str
  documentNumber : Str
  dateOfBirth : Str
  expiryDate : Str
  nationality : Str
  surname : Str
  givenNames : Str
  sex : Str
  checksumValid : Bool
deriving DecidableEq

/-- `MRZParser.parseDate`.  The `!dateStr` guard (empty-string falsiness) is
subsumed by the length test.  When the two year characters are not digits,
`parseInt` yields NaN, `NaN < 50` is false, `1900 + NaN` is NaN, and the
template literal renders it as `"NaN"`. -/
def parseDate (dateStr : Str) : Str :=
  if dateStr.length ≠ 6 then [] else
  let year := jsParseInt (substring dateStr 0 2)
  let month := substring dateStr 2 4
  let day := substring dateStr 4 6
  match year with
  | some y =>
    let fullYear := if y < 50 then 2000 + y else 1900 + y
    (Nat.repr fullYear).toList ++ '-' :: month ++ '-' :: day
  | none => "NaN".toList ++ '-' :: month ++ '-' :: day

/-- Per-character value in `MRZParser.validateChecksum`: digits map to their
value, `A`–`Z` to code − 65 + 10, everything else (the filler) to 0. -/
def checksumCharValue (c : Char) : Nat :=
  if 48 ≤ c.toNat ∧ c.toNat ≤ 57 then c.toNat - 48
  else if 65 ≤ c.toNat ∧ c.toNat ≤ 90 then c.toNat - 65 + 10
  else 0

/-- The checksum loop: running index `i` selects the weight `[7,3,1][i % 3]`. -/
def checksumSum : Str → Nat → Nat
  | [], _ => 0
  | c :: rest, i => checksumCharValue c * ([7, 3, 1].getD (i % 3) 0) + checksumSum rest (i + 1)

/-- `MRZParser.validateChecksum`: the weighted sum reduced mod 10, rendered
as a decimal string, must equal the supplied check digit string. -/
def validateChecksum (data checksum : Str) : Bool :=
  (Nat.repr (checksumSum data 0 % 10)).toList == checksum

/-- `MRZParser.parseTD3`.  `names[k]?.replace(/</g,' ').trim() || ''` yields
`''` when `names` has no element `k`; `getD k []` gives the same result since
the replace/trim pipeline maps `[]` to `[]`, and `'' || ''` is `''`. -/
def parseTD3 (lines : List Str) : MRZData :=
  let line1 := lines.getD 0 []
  let line2 := lines.getD 1 []
  let documentType := stripTrailingFiller (substring line1 0 2)
  let issuingCountry := stripTrailingFiller (substring line1 2 5)
  let names := splitLtLt (substring line1 5 44)
  let surname := jsTrim (fillerToSpace (names.getD 0 []))
  let givenNames := jsTrim (fillerToSpace (names.getD 1 []))
  let documentNumber := stripTrailingFiller (substring line2 0 9)
  let documentNumberChecksum := substring line2 9 10
  let nationality := stripTrailingFiller (substring line2 10 13)
  let dateOfBirth := parseDate (substring line2 13 19)
  let dobChecksum := substring line2 19 20
  let sex := substring line2 20 21
  let expiryDate := parseDate (substring line2 21 27)
  let expiryChecksum := substring line2 27 28
  let checksumValid :=
    validateChecksum (substring line2 0 9) documentNumberChecksum &&
    validateChecksum (substring line2 13 19) dobChecksum &&
    validateChecksum (substring line2 21 27) expiryChecksum
  { documentType := documentType, issuingCountry := issuingCountry,
    documentNumber := documentNumber, dateOfBirth := dateOfBirth,
    expiryDate := expiryDate, nationality := nationality, surname := surname,
    givenNames := givenNames, sex := sex, checksumValid := checksumValid }

/-- `MRZParser.parseTD1`: no check digits are decoded, `checksumValid` is
hard-coded `true`. -/
def parseTD1 (lines : List Str) : MRZData :=
  let line1 := lines.getD 0 []
  let line2 := lines.getD 1 []
  let line3 := lines.getD 2 []
  let documentType := stripTrailingFiller (substring line1 0 2)
  let issuingCountry := stripTrailingFiller (substring line1 2 5)
  let documentNumber := stripTrailingFiller (substring line1 5 14)
  let dateOfBirth := parseDate (substring line2 0 6)
  let sex := substring line2 7 8
  let expiryDate := parseDate (substring line2 8 14)
  let nationality := stripTrailingFiller (substring line2 15 18)
  let names := splitLtLt line3
  let surname := jsTrim (fillerToSpace (names.getD 0 []))
  let givenNames := jsTrim (fillerToSpace (names.getD 1 []))
  { documentType := documentType, issuingCountry := issuingCountry,
    documentNumber := documentNumber, dateOfBirth := dateOfBirth,
    expiryDate := expiryDate, nationality := nationality, surname := surname,
    givenNames := givenNames, sex := sex, checksumValid := true }

/-- `line.replace(/[^A-Z0-9<]/g, '')` applied to each candidate line. -/
def cleanLines (mrzLines : List Str) : List Str :=
  mrzLines.map (fun l => l.filter isMRZChar)

/-- `MRZParser.parseMRZ`: clean the lines to `[A-Z0-9<]`, then dispatch on
shape.  Note that the TD1 branch tests only the length of the first line. -/
def parseMRZ (mrzLines : List Str) : Option MRZData :=
  if mrzLines.length < 2 then none
  else if (cleanLines mrzLines).length = 2 ∧ ((cleanLines mrzLines).getD 0 []).length = 44 ∧
      ((cleanLines mrzLines).getD 1 []).length = 44 then
    some (parseTD3 (cleanLines mrzLines))
  else if (cleanLines mrzLines).length = 3 ∧ ((cleanLines mrzLines).getD 0 []).length = 30 then
    some (parseTD1 (cleanLines mrzLines))
  else none

/-- The regex `^[A-Z0-9<]{28,44}$` as an explicit predicate: every character
in the class and length between 28 and 44. -/
def mrzLineTest (cleanLine : Str) : Bool :=
  28 ≤ cleanLine.length && cleanLine.length ≤ 44 && cleanLine.all isMRZChar

/-- `MRZParser.extractMRZFromText`: split into lines, trim, strip whitespace,
keep the lines matching the MRZ pattern, in order. -/
def extractMRZFromText (text : Str) : List Str :=
  let lines := (splitNl text).map jsTrim
  lines.foldl
    (fun acc line =>
      let cleanLine := jsRemoveWs line
      if mrzLineTest cleanLine then acc ++ [cleanLine] else acc)
    []

/-! ### Calendar dates and the date-fns collaborators

`date-fns` is an external library; its behaviour is embedded at day
granularity (the evaluation instant `new Date()` becomes an explicit
`CalDate` argument).  `parseISO` never throws: an unparseable input yields
an Invalid Date, modelled as `none`, whose comparisons are all false (NaN
semantics). -/

/-- A calendar date (year, month, day). -/
structure CalDate where
  year : Int
  month : Int
  day : Int
deriving DecidableEq

def isLeapYear (y : Int) : Bool :=
  y % 4 == 0 && (y % 100 != 0 || y % 400 == 0)

def daysInMonth (y m : Int) : Int :=
  if m = 4 ∨ m = 6 ∨ m = 9 ∨ m = 11 then 30
  else if m = 2 then (if isLeapYear y then 29 else 28)
  else 31

def digitVal (c : Char) : Nat := c.toNat - 48

/-- `parseISO` restricted to the complete-date form `YYYY-MM-DD` (the only
form the callers produce); anything else is an Invalid Date (`none`).
date-fns validates the month range and the day against the month length. -/
def parseISO (s : Str) : Option CalDate :=
  match s with
  | [y1, y2, y3, y4, '-', m1, m2, '-', d1, d2] =>
    if y1.isDigit && y2.isDigit && y3.isDigit && y4.isDigit &&
       m1.isDigit && m2.isDigit && d1.isDigit && d2.isDigit then
      let y : Int := (1000 * digitVal y1 + 100 * digitVal y2 + 10 * digitVal y3 + digitVal y4 : Nat)
      let m : Int := (10 * digitVal m1 + digitVal m2 : Nat)
      let d : Int := (10 * digitVal d1 + digitVal d2 : Nat)
      if 1 ≤ m ∧ m ≤ 12 ∧ 1 ≤ d ∧ d ≤ daysInMonth y m then some ⟨y, m, d⟩ else none
    else none
  | _ => none

def dateLtB (a b : CalDate) : Bool :=
  a.year < b.year ||
    (a.year == b.year && (a.month < b.month || (a.month == b.month && a.day < b.day)))

/-- `isBefore` on possibly-invalid dates: comparisons against an Invalid
Date (NaN timestamp) are false. -/
def isBefore (a b : Option CalDate) : Bool :=
  match a, b with
  | some x, some y => dateLtB x y
  | _, _ => false

/-- `compareAsc a b`: −1 when `a` is earlier, 1 when later, 0 when equal. -/
def compareAsc (a b : CalDate) : Int :=
  if dateLtB a b then -1 else if dateLtB b a then 1 else 0

/-- Compare only month and day (date-fns compares the two dates after
mapping both into a common year). -/
def compareMDAsc (a b : CalDate) : Int :=
  if a.month < b.month ∨ (a.month = b.month ∧ a.day < b.day) then -1
  else if b.month < a.month ∨ (b.month = a.month ∧ b.day < a.day) then 1
  else 0

/-- `differenceInYears(l, r)`: signed count of full calendar years. -/
def differenceInYears (l r : CalDate) : Int :=
  let sign := compareAsc l r
  let difference : Int := (l.year - r.year).natAbs
  let isLastYearNotFull := compareMDAsc l r == -sign
  sign * (difference - (if isLastYearNotFull then 1 else 0))

/-- `differenceInMonths(l, r)`: signed count of full calendar months, at day
granularity (the end-of-month special cases of date-fns do not arise at
this granularity). -/
def differenceInMonths (l r : CalDate) : Int :=
  let sign := compareAsc l r
  let difference := (12 * (l.year - r.year) + (l.month - r.month)).natAbs
  let isLastMonthNotFull :=
    (if l.day < r.day then (-1 : Int) else if r.day < l.day then 1 else 0) == -sign
  if difference < 1 then 0
  else sign * ((difference : Int) - (if isLastMonthNotFull then 1 else 0))

/-! ### Validator data model -/

inductive CheckStatus where
  | pass
  | warning
  | fail
deriving DecidableEq

structure ValidationCheck where
  field : Str
  status : CheckStatus
  message : Str
deriving DecidableEq

structure ExtractedField where
  value : Str
  confidence : Int
deriving DecidableEq

/-- The extracted-field map consumed by the validator (only the fields it
reads). -/
structure ExtractedData where
  documentNumber : Option ExtractedField
  fullName : Option ExtractedField
  dateOfBirth : Option ExtractedField
  expiryDate : Option ExtractedField
  nationality : Option ExtractedField
deriving DecidableEq

structure ApplicantForm where
  name : Str
  dateOfBirth : Str
  passportNumber : Str
  nationality : Str
  intendedVisaType : Str
deriving DecidableEq

/-- The eligibility policy (the opaque `visaTypeRequirements` record is
never read by the validator and is omitted). -/
structure EligibilityPolicy where
  minAge : Option Int
  maxAge : Option Int
  allowedNationalities : Option (List Str)
  blockedNationalities : Option (List Str)
  minPassportValidity : Option Int
deriving DecidableEq

/-- Optional chaining plus string truthiness: `extractedData.field?.value`
is truthy iff the field is present and its value is a non-empty string. -/
def fieldVal : Option ExtractedField → Option Str
  | none => none
  | some f => if f.value = [] then none else some f.value

/-- JavaScript numeric truthiness of an optional numeric policy field:
`undefined` and `0` are falsy, every other number truthy. -/
def optTruthy : Option Int → Bool
  | none => false
  | some v => v != 0

/-! ### DocumentValidator helpers -/

/-- `normalizeString`: uppercase, then strip everything outside `[A-Z0-9]`. -/
def normalizeString (str : Str) : Str :=
  (str.map Char.toUpper).filter
    (fun c => decide ((65 ≤ c.toNat ∧ c.toNat ≤ 90) ∨ (48 ≤ c.toNat ∧ c.toNat ≤ 57)))

/-- The Levenshtein matrix entry `matrix[i][j]` of
`DocumentValidator.levenshteinDistance` (row `i` ranges over `str2`, column
`j` over `str1`); the first row and column are the initialisation, the rest
the standard unit-cost recurrence with the minimum taken in source order. -/
def levEntry (str1 str2 : Str) (i j : Nat) : Nat :=
  match i, j with
  | 0, j => j
  | i + 1, 0 => i + 1
  | i + 1, j + 1 =>
    if str2.getD i ' ' = str1.getD j ' ' then levEntry str1 str2 i j
    else
      min (levEntry str1 str2 i j + 1)
        (min (levEntry str1 str2 (i + 1) j + 1) (levEntry str1 str2 i (j + 1) + 1))
termination_by (i, j)

/-- `DocumentValidator.levenshteinDistance` returns `matrix[str2.length][str1.length]`. -/
def levenshteinDistance (str1 str2 : Str) : Nat :=
  levEntry str1 str2 str2.length str1.length

/-- `DocumentValidator.calculateSimilarity` (JS numbers as exact rationals). -/
def calculateSimilarity (str1 str2 : Str) : ℚ :=
  let longer := if str2.length < str1.length then str1 else str2
  let shorter := if str2.length < str1.length then str2 else str1
  if longer.length = 0 then 1
  else ((longer.length : ℚ) - (levenshteinDistance longer shorter : ℚ)) / (longer.length : ℚ)

/-- The status ternary of the name cross-check in `validateDocument`. -/
def nameMatchStatus (similarity : ℚ) : CheckStatus :=
  if similarity > 0.8 then CheckStatus.pass
  else if similarity > 0.6 then CheckStatus.warning
  else CheckStatus.fail

/-- `(x).toFixed(0)` for the non-negative values used here: nearest
integer, ties upward. -/
def jsToFixed0 (q : ℚ) : Str := (Int.floor (q + 1/2)).repr.toList

/-- `Math.round`: `⌊x + 1/2⌋` (ties toward +∞). -/
def jsRound (q : ℚ) : Int := Int.floor (q + 1/2)

/-- The regex `^\d{4}-\d{2}-\d{2}$`. -/
def iso8601Test (date : Str) : Bool :=
  match date with
  | [a, b, c, d, '-', e, f, '-', g, h] =>
    a.isDigit && b.isDigit && c.isDigit && d.isDigit &&
      e.isDigit && f.isDigit && g.isDigit && h.isDigit
  | _ => false

/-- `DocumentValidator.validateDateFormat`. -/
def validateDateFormat (date : Str) (fieldName : Str) : ValidationCheck :=
  let isValid := iso8601Test date
  { field := fieldName,
    status := if isValid then CheckStatus.pass else CheckStatus.fail,
    message := if isValid then "Date format is valid (ISO 8601)".toList
               else "Date format is invalid".toList }

/-- `DocumentValidator.validateExpiryDate`.  `parseISO` never throws — an
invalid input produces an Invalid Date, and `isBefore(InvalidDate, now)` is
false — so the source's catch branch (status `fail`, message
"Unable to parse expiry date") is unreachable and the try block is the
whole behaviour. -/
def validateExpiryDate (expiryDate : Str) (now : CalDate) : ValidationCheck :=
  let expiry := parseISO expiryDate
  let isExpired := isBefore expiry (some now)
  { field := "Expiry Date".toList,
    status := if isExpired then CheckStatus.fail else CheckStatus.pass,
    message := if isExpired then "Document has expired".toList
               else "Document is valid".toList }

/-- `DocumentValidator.calculateAge`: `differenceInYears(new Date(), parseISO(dob))`.
An unparseable date of birth gives an Invalid Date and hence a NaN age
(`none`); nothing throws, so the catch branch returning 0 is unreachable. -/
def calculateAge (dateOfBirth : Str) (now : CalDate) : Option Int :=
  (parseISO dateOfBirth).map (fun d => differenceInYears now d)

/-! ### validateDocument, block by block (concatenated in source order) -/

/-- Date-format checks and the expiry check (source lines: the two leading
`if` blocks of `validateDocument`). -/
def dateFormatChecks (ed : ExtractedData) (now : CalDate) : List ValidationCheck :=
  (match fieldVal ed.dateOfBirth with
   | some v => [validateDateFormat v "Date of Birth".toList]
   | none => []) ++
  (match fieldVal ed.expiryDate with
   | some v => [validateDateFormat v "Expiry Date".toList, validateExpiryDate v now]
   | none => [])

/-- The MRZ block: checksum check, document-number cross-check, name
cross-check.  (`match` is a reserved word; the source's `match` flag is
`mtch`.) -/
def mrzRuleChecks (m : MRZData) (ed : ExtractedData) : List ValidationCheck :=
  [{ field := "MRZ Checksum".toList,
     status := if m.checksumValid then CheckStatus.pass else CheckStatus.fail,
     message := if m.checksumValid then "MRZ checksums are valid".toList
                else "MRZ checksum validation failed".toList }] ++
  (match fieldVal ed.documentNumber with
   | some v =>
     if m.documentNumber ≠ [] then
       let mtch := normalizeString v == normalizeString m.documentNumber
       [{ field := "Document Number".toList,
          status := if mtch then CheckStatus.pass else CheckStatus.warning,
          message := if mtch then "Document number matches MRZ".toList
                     else "Document number differs from MRZ".toList }]
     else []
   | none => []) ++
  (match fieldVal ed.fullName with
   | some v =>
     let extractedName := normalizeString v
     let mrzName := normalizeString (m.givenNames ++ ' ' :: m.surname)
     let similarity := calculateSimilarity extractedName mrzName
     [{ field := "Name".toList,
        status := nameMatchStatus similarity,
        message := "Name similarity: ".toList ++ jsToFixed0 (similarity * 100) ++ "%".toList }]
   | none => [])

/-- The applicant-form block: passport-number and date-of-birth matches. -/
def formRuleChecks (f : ApplicantForm) (ed : ExtractedData) : List ValidationCheck :=
  (match fieldVal ed.documentNumber with
   | some v =>
     let docMatch := normalizeString f.passportNumber == normalizeString v
     [{ field := "Passport Number Match".toList,
        status := if docMatch then CheckStatus.pass else CheckStatus.fail,
        message := if docMatch then "Passport number matches application".toList
                   else "Passport number does not match application".toList }]
   | none => []) ++
  (match fieldVal ed.dateOfBirth with
   | some v =>
     let dobMatch := f.dateOfBirth == v
     [{ field := "Date of Birth Match".toList,
        status := if dobMatch then CheckStatus.pass else CheckStatus.fail,
        message := if dobMatch then "Date of birth matches application".toList
                   else "Date of birth does not match application".toList }]
   | none => [])

/-- The policy age block.  A NaN age (unparseable date of birth) fails both
comparisons, and a zero bound is falsy, so neither check fires. -/
def ageRuleChecks (minAge maxAge : Option Int) (ed : ExtractedData) (now : CalDate) :
    List ValidationCheck :=
  match fieldVal ed.dateOfBirth with
  | none => []
  | some v =>
    match calculateAge v now with
    | none => []
    | some age =>
      (match minAge with
       | some b =>
         if b ≠ 0 ∧ age < b then
           [{ field := "Age Requirement".toList, status := CheckStatus.fail,
              message := "Applicant is ".toList ++ age.repr.toList ++
                " years old, minimum age is ".toList ++ b.repr.toList }]
         else []
       | none => []) ++
      (match maxAge with
       | some b =>
         if b ≠ 0 ∧ age > b then
           [{ field := "Age Requirement".toList, status := CheckStatus.fail,
              message := "Applicant is ".toList ++ age.repr.toList ++
                " years old, maximum age is ".toList ++ b.repr.toList }]
         else []
       | none => [])

/-- The policy nationality block.  A present list is truthy even when
empty. -/
def nationalityRuleChecks (allowed blocked : Option (List Str)) (ed : ExtractedData) :
    List ValidationCheck :=
  match fieldVal ed.nationality with
  | none => []
  | some v =>
    (match allowed with
     | some l =>
       if v ∈ l then []
       else
         [{ field := "Nationality".toList, status := CheckStatus.fail,
            message := "Nationality ".toList ++ v ++ " is not in allowed list".toList }]
     | none => []) ++
    (match blocked with
     | some l =>
       if v ∈ l then
         [{ field := "Nationality".toList, status := CheckStatus.fail,
            message := "Nationality ".toList ++ v ++ " is blocked".toList }]
       else []
     | none => [])

/-- The remaining-validity block.  A NaN month difference (unparseable
expiry) fails the comparison; a zero `minPassportValidity` is falsy. -/
def validityRuleChecks (minPassportValidity : Option Int) (ed : ExtractedData)
    (now : CalDate) : List ValidationCheck :=
  match minPassportValidity with
  | none => []
  | some mv =>
    if mv = 0 then []
    else
      match fieldVal ed.expiryDate with
      | none => []
      | some v =>
        match (parseISO v).map (fun d => differenceInMonths d now) with
        | none => []
        | some monthsValid =>
          if monthsValid < mv then
            [{ field := "Passport Validity".toList, status := CheckStatus.fail,
               message := "Passport valid for ".toList ++ monthsValid.repr.toList ++
                 " months, requires ".toList ++ mv.repr.toList ++ " months".toList }]
          else []

/-- `DocumentValidator.validateDocument`, with the evaluation instant
(`new Date()`) passed explicitly as `now`. -/
def validateDocument (extractedData : ExtractedData) (mrzData : Option MRZData)
    (applicantForm : Option ApplicantForm) (policy : Option EligibilityPolicy)
    (now : CalDate) : List ValidationCheck :=
  dateFormatChecks extractedData now ++
  (match mrzData with
   | some m => mrzRuleChecks m extractedData
   | none => []) ++
  (match applicantForm with
   | some f => formRuleChecks f extractedData
   | none => []) ++
  (match policy with
   | some p =>
     ageRuleChecks p.minAge p.maxAge extractedData now ++
     nationalityRuleChecks p.allowedNationalities p.blockedNationalities extractedData ++
     validityRuleChecks p.minPassportValidity extractedData now
   | none => [])

/-! ### Eligibility assessor -/

structure EligibilityOutcome where
  eligible : Bool
  confidence : Int
  reasons : List Str
deriving DecidableEq

/-- `DocumentValidator.assessEligibility`. The form and policy arguments
are accepted but never read, exactly as in the source. -/
def assessEligibility (checks : List ValidationCheck)
    (applicantForm : Option ApplicantForm) (policy : Option EligibilityPolicy) :
    EligibilityOutcome :=
  let failedChecks := checks.filter (fun c => decide (c.status = CheckStatus.fail))
  let warningChecks := checks.filter (fun c => decide (c.status = CheckStatus.warning))
  let passedChecks := checks.filter (fun c => decide (c.status = CheckStatus.pass))
  let eligible := decide (failedChecks.length = 0)
  let totalChecks := if checks.length = 0 then 1 else checks.length
  let confidence :=
    jsRound ((((passedChecks.length : ℚ) + (warningChecks.length : ℚ) * (1/2)) /
      (totalChecks : ℚ)) * 100)
  let reasons :=
    (if failedChecks.length > 0 then
       failedChecks.map (fun c => c.field ++ ": ".toList ++ c.message)
     else []) ++
    (if warningChecks.length > 0 then
       warningChecks.map (fun c => "Warning - ".toList ++ c.field ++ ": ".toList ++ c.message)
     else []) ++
    (if eligible && passedChecks.length > 0 then ["All validation checks passed".toList]
     else [])
  { eligible := eligible, confidence := confidence, reasons := reasons }

/-! ### Specification-side definitions (worded from the spec, for
refinement comparisons) -/

/-- Per-character numeric value as the specification words it: a digit maps
to its value, a letter to its alphabet position plus 10 (A=10 … Z=35), the
filler to 0. -/
def specCharValue (c : Char) : Nat :=
  if 48 ≤ c.toNat ∧ c.toNat ≤ 57 then c.toNat - 48
  else if c = '<' then 0
  else c.toNat - 65 + 10

/-- The checksum sum as the specification words it: the sum over positions
`i` of `value(char_i) * weights[i mod 3]` with weights `[7, 3, 1]`. -/
def specChecksumSum (data : Str) : Nat :=
  ∑ i ∈ Finset.range data.length, specCharValue (data.getD i ' ') * ([7, 3, 1].getD (i % 3) 0)

/-- The confidence formula as the specification words it:
`round(100 * (passCount + 0.5 * warningCount) / totalChecks)` with
`totalChecks` floored at 1. -/
def specConfidence (checks : List ValidationCheck) : Int :=
  let passCount := (checks.filter (fun c => decide (c.status = CheckStatus.pass))).length
  let warningCount := (checks.filter (fun c => decide (c.status = CheckStatus.warning))).length
  let totalChecks := max checks.length 1
  jsRound (100 * ((passCount : ℚ) + (1/2) * (warningCount : ℚ)) / (totalChecks : ℚ))

/-! ## Helper lemmas -/

theorem filter_pass_warning_length_le (checks : List ValidationCheck) :
    (checks.filter (fun c => decide (c.status = CheckStatus.pass))).length +
      (checks.filter (fun c => decide (c.status = CheckStatus.warning))).length ≤
      checks.length := by
  induction checks with
  | nil => simp
  | cons c t ih =>
    rcases h : c.status <;>
      simp [List.filter_cons, h] <;> omega

theorem jsRound_nonneg {q : ℚ} (h : 0 ≤ q) : 0 ≤ jsRound q := by
  unfold jsRound
  have : ((0 : ℤ) : ℚ) ≤ q + 1 / 2 := by push_cast; linarith
  exact Int.le_floor.mpr this

theorem jsRound_le_100 {q : ℚ} (h : q ≤ 100) : jsRound q ≤ 100 := by
  unfold jsRound
  have : jsRound q < 101 := by
    unfold jsRound
    exact Int.floor_lt.mpr (by push_cast; linarith)
  unfold jsRound at this
  omega

theorem jsRound_zero : jsRound 0 = 0 := by
  unfold jsRound
  rw [zero_add]
  rw [Int.floor_eq_iff] <;> norm_num

/-! ## C1 — eligibility assessor -/

/-- C1: for every list of validation checks, `assessEligibility` returns
`eligible = true` iff no check has status `fail`; its confidence equals the
specification's formula `round(100 * (passCount + 0.5 * warningCount) /
totalChecks)` with `totalChecks` floored at 1; the confidence is an integer
in `[0, 100]`; and the empty check list yields confidence 0 and
`eligible = true`. -/
theorem assessEligibility_spec (checks : List ValidationCheck)
    (af : Option ApplicantForm) (pol : Option EligibilityPolicy) :
    ((assessEligibility checks af pol).eligible = true ↔
      (checks.filter (fun c => decide (c.status = CheckStatus.fail))).length = 0)
    ∧ (assessEligibility checks af pol).confidence = specConfidence checks
    ∧ 0 ≤ (assessEligibility checks af pol).confidence
    ∧ (assessEligibility checks af pol).confidence ≤ 100
    ∧ (assessEligibility [] af pol).confidence = 0
    ∧ (assessEligibility [] af pol).eligible = true := by
  have hcount := filter_pass_warning_length_le checks
  set p := (checks.filter (fun c => decide (c.status = CheckStatus.pass))).length with hp
  set w := (checks.filter (fun c => decide (c.status = CheckStatus.warning))).length with hw
  refine ⟨by simp [assessEligibility], ?_, ?_, ?_, ?_, by simp [assessEligibility]⟩
  · -- source confidence = spec confidence
    simp only [assessEligibility, specConfidence, ← hp, ← hw]
    congr 1
    rcases Nat.eq_zero_or_pos checks.length with h0 | hpos
    · rw [if_pos h0, h0]
      norm_num
      ring
    · rw [if_neg (by omega)]
      have hmax : max checks.length 1 = checks.length := by omega
      rw [hmax]
      ring
  · -- lower bound
    simp only [assessEligibility]
    apply jsRound_nonneg
    rcases Nat.eq_zero_or_pos checks.length with h0 | hpos
    · rw [if_pos h0]; positivity
    · rw [if_neg (by omega)]; positivity
  · -- upper bound
    simp only [assessEligibility]
    apply jsRound_le_100
    rcases Nat.eq_zero_or_pos checks.length with h0 | hpos
    · have hnil : checks = [] := List.length_eq_zero.mp h0
      subst hnil
      norm_num
    · rw [if_neg (by omega)]
      have h1 : ((p : ℚ) + (w : ℚ) * (1 / 2)) / (checks.length : ℚ) ≤ 1 := by
        rw [div_le_one (by exact_mod_cast hpos)]
        have : (p : ℚ) + (w : ℚ) ≤ (checks.length : ℚ) := by exact_mod_cast hcount
        linarith
      nlinarith [h1]
  · -- empty list: confidence 0
    simp only [assessEligibility]
    simp only [List.filter_nil, List.length_nil, if_pos rfl]
    norm_num [jsRound_zero]

/-! ## C2 — checksum algorithm -/

theorem checksumCharValue_eq_spec {c : Char} (h : isMRZChar c = true) :
    checksumCharValue c = specCharValue c := by
  unfold isMRZChar at h
  rw [decide_eq_true_eq] at h
  unfold checksumCharValue specCharValue
  rcases h with hd | hl | hf
  · rw [if_pos hd, if_pos hd]
  · have hnd : ¬(48 ≤ c.toNat ∧ c.toNat ≤ 57) := by omega
    have hne : c ≠ '<' := by
      intro he
      subst he
      exact absurd hl (by decide)
    rw [if_neg hnd, if_neg hnd, if_pos hl, if_neg hne]
  · subst hf
    decide

theorem checksumSum_eq_spec (data : Str) (h : ∀ ch ∈ data, isMRZChar ch = true) :
    ∀ k, checksumSum data k =
      ∑ i ∈ Finset.range data.length,
        specCharValue (data.getD i ' ') * ([7, 3, 1].getD ((k + i) % 3) 0) := by
  induction data with
  | nil => intro k; simp [checksumSum]
  | cons c t ih =>
    intro k
    have hc : isMRZChar c = true := h c (List.mem_cons_self c t)
    have ht : ∀ ch ∈ t, isMRZChar ch = true := fun ch hm => h ch (List.mem_cons_of_mem _ hm)
    rw [checksumSum, ih ht (k + 1), List.length_cons, Finset.sum_range_succ']
    simp only [List.getD_cons_succ, List.getD_cons_zero, Nat.add_zero]
    rw [checksumCharValue_eq_spec hc]
    have hshift : ∀ i : ℕ, (k + 1 + i) % 3 = (k + (i + 1)) % 3 := fun i => by omega
    simp only [hshift]
    exact Nat.add_comm _ _

/-- C2: for data over the MRZ character class and a single check-digit
character, the source's checksum verification succeeds iff the decimal
string of the spec's weighted sum (`value(char_i) * [7,3,1][i mod 3]`,
summed and reduced mod 10) equals that character. -/
theorem validateChecksum_spec (data : Str) (cd : Char)
    (h : ∀ ch ∈ data, isMRZChar ch = true) :
    validateChecksum data [cd] = true ↔
      (Nat.repr (specChecksumSum data % 10)).toList = [cd] := by
  unfold validateChecksum specChecksumSum
  rw [checksumSum_eq_spec data h 0]
  simp only [Nat.zero_add, beq_iff_eq]

/-- Witness for C2 at the ICAO date-of-birth field `740812` with check
digit `2`. -/
theorem validateChecksum_spec_witness :
    validateChecksum "740812".toList ['2'] = true ↔
      (Nat.repr (specChecksumSum "740812".toList % 10)).toList = ['2'] :=
  validateChecksum_spec "740812".toList '2' (by decide)

/-! ## C3 — decoder shape dispatch -/

/-- C3 (amended): `parseMRZ` returns a record iff, after stripping
characters outside `[A-Z0-9<]`, either there are exactly 2 lines of exactly
44 characters each, or exactly 3 lines whose FIRST line has exactly 30
characters — the lengths of the second and third TD1 lines are not
checked.  Every other input yields `none`. -/
theorem parseMRZ_shape (mrzLines : List Str) :
    (parseMRZ mrzLines).isSome = true ↔
      (((cleanLines mrzLines).length = 2 ∧
          ((cleanLines mrzLines).getD 0 []).length = 44 ∧
          ((cleanLines mrzLines).getD 1 []).length = 44) ∨
        ((cleanLines mrzLines).length = 3 ∧
          ((cleanLines mrzLines).getD 0 []).length = 30)) := by
  unfold parseMRZ
  split_ifs with h1 h2 h3
  · simp only [Option.isSome_none, Bool.false_eq_true, false_iff, not_or]
    have hlen : (cleanLines mrzLines).length = mrzLines.length := by
      simp [cleanLines]
    constructor
    · rintro ⟨hl, -⟩; omega
    · rintro ⟨hl, -⟩; omega
  · simp only [Option.isSome_some, true_iff]
    exact Or.inl h2
  · simp only [Option.isSome_some, true_iff]
    exact Or.inr h3
  · simp only [Option.isSome_none, Bool.false_eq_true, false_iff, not_or]
    exact ⟨h2, h3⟩

/-- C3 as stated is false: cleaned lines of lengths 30, 1 and 0 are not
three lines of exactly 30 characters each (nor two of 44), yet the decoder
still returns a record. -/
theorem parseMRZ_shape_counterexample :
    (parseMRZ [List.replicate 30 'A', ['0'], []]).isSome = true ∧
      ¬ (((cleanLines [List.replicate 30 'A', ['0'], []]).length = 2 ∧
            ∀ l ∈ cleanLines [List.replicate 30 'A', ['0'], []], l.length = 44) ∨
          ((cleanLines [List.replicate 30 'A', ['0'], []]).length = 3 ∧
            ∀ l ∈ cleanLines [List.replicate 30 'A', ['0'], []], l.length = 30)) := by
  decide

/-! ## C4 — expiry rule on unparseable input -/

/-- C4: contrary to the claim (and to the intent of the source's dead
catch branch), an expiry value that cannot be parsed as a date produces a
`pass` check with message "Document is valid": `parseISO` returns an
Invalid Date instead of throwing and `isBefore(InvalidDate, now)` is
false, so the "Unable to parse expiry date" branch is unreachable. -/
theorem validateExpiryDate_unparseable_passes :
    validateExpiryDate "not-a-date".toList ⟨2026, 10, 11⟩ =
      { field := "Expiry Date".toList, status := CheckStatus.pass,
        message := "Document is valid".toList } ∧
      validateExpiryDate [] ⟨2026, 10, 11⟩ =
        { field := "Expiry Date".toList, status := CheckStatus.pass,
          message := "Document is valid".toList } := by
  decide

/-! ## C5 — canonical ICAO TD3 example -/

/-- C5: the canonical ICAO 9303 TD3 pair decodes to the documented record,
with all three check digits verifying. -/
theorem parseMRZ_icao_td3 :
    parseMRZ ["P<UTOERIKSSON<<ANNA<MARIA<<<<<<<<<<<<<<<<<<<".toList,
              "L898902C36UTO7408122F1204159ZE184226B<<<<<10".toList] =
      some { documentType := "P".toList, issuingCountry := "UTO".toList,
             documentNumber := "L898902C3".toList, dateOfBirth := "1974-08-12".toList,
             expiryDate := "2012-04-15".toList, nationality := "UTO".toList,
             surname := "ERIKSSON".toList, givenNames := "ANNA MARIA".toList,
             sex := "F".toList, checksumValid := true } := by
  decide

/-! ## C6 — century inference in date decoding -/

/-- C6: for every 6-digit date string `YYMMDD` the decoder emits the full
year `2000 + YY` when `YY < 50` and `1900 + YY` otherwise (so `YY = 49`
gives 2049 and `YY = 50` gives 1950), followed by the month and day
digits. -/
theorem parseDate_century (s : Str) (h6 : s.length = 6)
    (hd : ∀ c ∈ s, c.isDigit = true) :
    parseDate s =
      (Nat.repr (if 10 * digitVal (s.getD 0 ' ') + digitVal (s.getD 1 ' ') < 50
          then 2000 + (10 * digitVal (s.getD 0 ' ') + digitVal (s.getD 1 ' '))
          else 1900 + (10 * digitVal (s.getD 0 ' ') + digitVal (s.getD 1 ' ')))).toList
        ++ '-' :: (s.drop 2).take 2 ++ '-' :: (s.drop 4).take 2 := by
  rcases s with _ | ⟨a, _ | ⟨b, _ | ⟨c, _ | ⟨d, _ | ⟨e, _ | ⟨f, _ | ⟨g, t⟩⟩⟩⟩⟩⟩⟩ <;>
    simp only [List.length_nil, List.length_cons] at h6 <;> try omega
  have ha : a.isDigit = true := hd a (by simp)
  have hb : b.isDigit = true := hd b (by simp)
  unfold parseDate substring jsParseInt
  rw [if_neg (by simp)]
  simp only [List.drop, List.take, Nat.sub_zero, List.takeWhile, ha, hb]
  have hval : digitsToNat [a, b] 0 = 10 * digitVal a + digitVal b := by
    simp only [digitsToNat, digitVal]
    omega
  simp only [hval]
  rfl

/-- Witness for C6 at the century boundary: `490101` decodes into 2049 and
`500101` into 1950. -/
theorem parseDate_century_witness :
    parseDate "490101".toList = "2049-01-01".toList ∧
      parseDate "500101".toList = "1950-01-01".toList := by
  constructor
  · rw [parseDate_century "490101".toList (by decide) (by decide)]
    decide
  · rw [parseDate_century "500101".toList (by decide) (by decide)]
    decide

/-! ## C7 — name similarity -/

theorem levEntry_zero_left (s1 s2 : Str) (j : Nat) : levEntry s1 s2 0 j = j := by
  rw [levEntry.eq_def]

theorem levEntry_succ_zero (s1 s2 : Str) (i : Nat) : levEntry s1 s2 (i + 1) 0 = i + 1 := by
  rw [levEntry.eq_def]

theorem levEntry_succ_succ (s1 s2 : Str) (i j : Nat) :
    levEntry s1 s2 (i + 1) (j + 1) =
      if s2.getD i ' ' = s1.getD j ' ' then levEntry s1 s2 i j
      else
        min (levEntry s1 s2 i j + 1)
          (min (levEntry s1 s2 (i + 1) j + 1) (levEntry s1 s2 i (j + 1) + 1)) := by
  rw [levEntry.eq_def]

/-- The Levenshtein matrix is symmetric under exchanging the two strings
together with transposition of the indices. -/
theorem levEntry_symm (s1 s2 : Str) :
    ∀ n i j, i + j ≤ n → levEntry s1 s2 i j = levEntry s2 s1 j i := by
  intro n
  induction n with
  | zero =>
    intro i j h
    have hi : i = 0 := by omega
    have hj : j = 0 := by omega
    subst hi
    subst hj
    rw [levEntry_zero_left, levEntry_zero_left]
  | succ n ih =>
    intro i j h
    rcases i with _ | i
    · rcases j with _ | j
      · rw [levEntry_zero_left, levEntry_zero_left]
      · rw [levEntry_zero_left, levEntry_succ_zero]
    · rcases j with _ | j
      · rw [levEntry_succ_zero, levEntry_zero_left]
      · rw [levEntry_succ_succ, levEntry_succ_succ]
        rw [ih i j (by omega), ih (i + 1) j (by omega), ih i (j + 1) (by omega)]
        by_cases hc : s2.getD i ' ' = s1.getD j ' '
        · rw [if_pos hc, if_pos hc.symm]
        · rw [if_neg hc, if_neg (fun h2 => hc h2.symm)]
          omega

theorem levenshteinDistance_symm (a b : Str) :
    levenshteinDistance a b = levenshteinDistance b a :=
  levEntry_symm a b (b.length + a.length) b.length a.length (by omega)

/-- C7: the similarity is `(max(len a, len b) − levenshtein(a,b)) / max(len a, len b)`
whenever the strings are not both empty, is 1 when both are empty, is
symmetric in its arguments, and the name cross-check classifies it as
`pass` above 4/5, `warning` above 3/5, `fail` otherwise. -/
theorem calculateSimilarity_spec :
    (∀ a b : Str, ¬(a = [] ∧ b = []) →
        calculateSimilarity a b =
          (((max a.length b.length : ℕ) : ℚ) - (levenshteinDistance a b : ℚ)) /
            ((max a.length b.length : ℕ) : ℚ))
    ∧ calculateSimilarity [] [] = 1
    ∧ (∀ a b : Str, calculateSimilarity a b = calculateSimilarity b a)
    ∧ (∀ q : ℚ, nameMatchStatus q =
        if 4 / 5 < q then CheckStatus.pass
        else if 3 / 5 < q then CheckStatus.warning
        else CheckStatus.fail) := by
  refine ⟨?_, rfl, ?_, ?_⟩
  · intro a b hne
    simp only [calculateSimilarity]
    by_cases hl : b.length < a.length
    · simp only [if_pos hl]
      rw [if_neg (by omega : ¬ a.length = 0)]
      have hmax : max a.length b.length = a.length := by omega
      rw [hmax]
    · simp only [if_neg hl]
      have hmax : max a.length b.length = b.length := by omega
      have hb0 : ¬ b.length = 0 := by
        intro h0
        exact hne ⟨List.length_eq_zero.mp (by omega), List.length_eq_zero.mp h0⟩
      rw [if_neg hb0, hmax, levenshteinDistance_symm b a]
  · intro a b
    simp only [calculateSimilarity]
    rcases Nat.lt_trichotomy a.length b.length with hab | hab | hab
    · simp only [if_neg (by omega : ¬ b.length < a.length), if_pos hab]
    · simp only [if_neg (by omega : ¬ b.length < a.length),
        if_neg (by omega : ¬ a.length < b.length)]
      rw [hab, levenshteinDistance_symm b a]
    · simp only [if_pos hab, if_neg (by omega : ¬ a.length < b.length)]
  · intro q
    unfold nameMatchStatus
    norm_num

/-- Witness for C7's conditional conjunct at `a = "AB"`, `b = ""`. -/
theorem calculateSimilarity_spec_witness :
    calculateSimilarity "AB".toList [] =
      (((max ("AB".toList).length ([] : Str).length : ℕ) : ℚ) -
          (levenshteinDistance "AB".toList [] : ℚ)) /
        ((max ("AB".toList).length ([] : Str).length : ℕ) : ℚ) :=
  calculateSimilarity_spec.1 "AB".toList [] (by decide)

/-! ## C8 — MRZ line selector -/

theorem filter_dropWhile_not (p : Char → Bool) (l : Str) :
    (l.dropWhile p).filter (fun c => !p c) = l.filter (fun c => !p c) := by
  induction l with
  | nil => rfl
  | cons c t ih =>
    by_cases hc : p c
    · rw [List.dropWhile_cons, if_pos hc, ih, List.filter_cons]
      simp [hc]
    · rw [List.dropWhile_cons, if_neg hc]

theorem jsRemoveWs_jsTrim (l : Str) : jsRemoveWs (jsTrim l) = jsRemoveWs l := by
  unfold jsRemoveWs jsTrim
  rw [List.filter_reverse, filter_dropWhile_not, List.filter_reverse,
    List.reverse_reverse, filter_dropWhile_not]

theorem foldl_pushClean (p : Str → Bool) (g : Str → Str) (ls : List Str) :
    ∀ acc : List Str,
      ls.foldl (fun acc line => if p (g line) then acc ++ [g line] else acc) acc =
        acc ++ (ls.map g).filter p := by
  induction ls with
  | nil => intro acc; simp
  | cons hd tl ih =>
    intro acc
    rw [List.foldl_cons, List.map_cons, List.filter_cons]
    by_cases hp : p (g hd)
    · rw [if_pos hp, ih]
      simp [hp]
    · rw [if_neg hp, ih]
      simp [hp]

/-- C8: the selector outputs exactly the whitespace-stripped input lines
that consist solely of `[A-Z0-9<]` with length in `[28, 44]`, as a filter
of the line sequence (hence preserving input order), and an input with no
qualifying line yields the empty sequence. -/
theorem extractMRZFromText_spec (text : Str) :
    extractMRZFromText text = ((splitNl text).map jsRemoveWs).filter mrzLineTest
    ∧ ((∀ l ∈ splitNl text, mrzLineTest (jsRemoveWs l) = false) →
        extractMRZFromText text = []) := by
  have h1 : extractMRZFromText text = ((splitNl text).map jsRemoveWs).filter mrzLineTest := by
    simp only [extractMRZFromText]
    rw [foldl_pushClean mrzLineTest jsRemoveWs, List.nil_append, List.map_map]
    congr 1
    exact List.map_congr_left (fun l _ => jsRemoveWs_jsTrim l)
  refine ⟨h1, fun hall => ?_⟩
  rw [h1]
  apply List.filter_eq_nil_iff.mpr
  intro x hx
  rcases List.mem_map.mp hx with ⟨l, hl, rfl⟩
  simp [hall l hl]

/-- Witness for C8's conditional conjunct: no line of `"xy"` qualifies, so
the selector returns the empty sequence. -/
theorem extractMRZFromText_spec_witness : extractMRZFromText "xy".toList = [] :=
  (extractMRZFromText_spec "xy".toList).2 (by decide)

/-! ## C9 — validator purity -/

/-- C9 (amended): with the evaluation instant (`new Date()`) made an
explicit argument, the cross-field validator is a pure function: two
invocations on identical extracted fields, MRZ record, applicant form,
policy AND evaluation instant produce identical check lists, and no state
exists outside these arguments. -/
theorem validateDocument_deterministic (ed : ExtractedData) (mrz : Option MRZData)
    (form : Option ApplicantForm) (policy : Option EligibilityPolicy) (now : CalDate) :
    validateDocument ed mrz form policy now = validateDocument ed mrz form policy now := rfl

/-- C9 as stated is false: the validator also reads the wall clock, so two
invocations with identical (fields, MRZ record, form, policy) can produce
different check lists — here the expiry rule flips between pass and fail
as the evaluation instant moves across the expiry date. -/
theorem validateDocument_clock_counterexample :
    validateDocument ⟨none, none, none, some ⟨"2030-01-01".toList, 90⟩, none⟩
        none none none ⟨2020, 1, 1⟩ ≠
      validateDocument ⟨none, none, none, some ⟨"2030-01-01".toList, 90⟩, none⟩
        none none none ⟨2040, 1, 1⟩ := by
  decide

/-! ## C10 — zero policy bounds are skipped -/

theorem ageRuleChecks_minAge_zero (maxAge : Option Int) (ed : ExtractedData) (now : CalDate) :
    ageRuleChecks (some 0) maxAge ed now = ageRuleChecks none maxAge ed now := by
  unfold ageRuleChecks
  cases fieldVal ed.dateOfBirth with
  | none => rfl
  | some v =>
    cases calculateAge v now with
    | none => rfl
    | some age => simp

theorem ageRuleChecks_maxAge_zero (minAge : Option Int) (ed : ExtractedData) (now : CalDate) :
    ageRuleChecks minAge (some 0) ed now = ageRuleChecks minAge none ed now := by
  unfold ageRuleChecks
  cases fieldVal ed.dateOfBirth with
  | none => rfl
  | some v =>
    cases calculateAge v now with
    | none => rfl
    | some age => simp

theorem validityRuleChecks_zero (ed : ExtractedData) (now : CalDate) :
    validityRuleChecks (some 0) ed now = validityRuleChecks none ed now := by
  unfold validityRuleChecks
  simp

/-- C10: a policy whose `minAge`, `maxAge` or `minPassportValidity` is the
number 0 produces exactly the same check list as the same policy with that
bound absent — the zero bound is falsy, the rule is skipped entirely, and
the two policies are indistinguishable at the validator's interface. -/
theorem policy_zero_bounds_skipped (ed : ExtractedData) (mrz : Option MRZData)
    (form : Option ApplicantForm) (now : CalDate) (p : EligibilityPolicy) :
    (validateDocument ed mrz form (some { p with minAge := some 0 }) now =
        validateDocument ed mrz form (some { p with minAge := none }) now)
    ∧ (validateDocument ed mrz form (some { p with maxAge := some 0 }) now =
        validateDocument ed mrz form (some { p with maxAge := none }) now)
    ∧ (validateDocument ed mrz form (some { p with minPassportValidity := some 0 }) now =
        validateDocument ed mrz form (some { p with minPassportValidity := none }) now) := by
  refine ⟨?_, ?_, ?_⟩
  · simp only [validateDocument]
    rw [ageRuleChecks_minAge_zero]
  · simp only [validateDocument]
    rw [ageRuleChecks_maxAge_zero]
  · simp only [validateDocument]
    rw [validityRuleChecks_zero]

end DocVerifier

